import Mathlib

/-!
Shallow embedding of the HWI STM32F4 CDC-ACM transport layer
(src/hwilib/devices/trezorlib/transport/cdcacm.py) and the STM32F4
device enumerator (src/hwilib/devices/stm32f4.py).

Machine integers in the source are small USB descriptor fields; they are
modelled as Nat. Byte strings are modelled as List Nat. Fallible
operations return Except. Side effects (USB writes, control transfers,
kernel-driver detaches, interface releases, 1 ms sleeps) are returned as
explicit event data so that theorems can talk about them.
-/

namespace HWI

/-- Errors raised by the transport layer. The source raises IOError for a
missing endpoint layout (the spec calls this TransportUnavailable),
TransportException with the observed size for chunk-size violations (the
spec calls this FramingError), and AssertionError for a handle used
before open. -/
inductive TErr
  | transportUnavailable
  | framing (n : Nat)
  | assertionFailed
deriving DecidableEq, Repr

/-- usb.util.ENDPOINT_IN: the direction bit of an endpoint address. -/
def ENDPOINT_IN : Nat := 0x80

/-- usb.util.endpoint_direction: masks the direction bit out of the
endpoint address. -/
def endpoint_direction (addr : Nat) : Nat := Nat.land addr 0x80

/-- pyusb legacy class code usb.CLASS_COMM. -/
def CLASS_COMM : Nat := 2

/-- pyusb legacy class code usb.CLASS_DATA. -/
def CLASS_DATA : Nat := 10

/-- A USB endpoint descriptor: only the address (with its direction bit)
is consulted by the source. -/
structure Endpoint where
  bEndpointAddress : Nat
deriving DecidableEq, Repr

/-- A USB interface of the active configuration: class code, descriptor
index, whether a kernel driver is currently bound, and its endpoints. -/
structure Interface where
  bInterfaceClass : Nat
  index : Nat
  kernelActive : Bool
  endpoints : List Endpoint
deriving DecidableEq, Repr

/-- A USB device as seen through pyusb: bus and address, vendor and
product identity, the number of configurations (iterating a pyusb Device
yields its configurations), and the interfaces of the active
configuration. -/
structure UsbDevice where
  bus : Nat
  address : Nat
  idVendor : Int
  idProduct : Int
  numConfigurations : Nat
  interfaces : List Interface
deriving DecidableEq, Repr

/-- Module constants of cdcacm.py selecting main vs debug interface and
endpoint numbers. -/
def INTERFACE : Nat := 0

def ENDPOINT : Nat := 1

def DEBUG_INTERFACE : Nat := 1

def DEBUG_ENDPOINT : Nat := 2

/-- CDCACMHandle state: the fields set by __init__ plus the read/write
endpoint handles that open() discovers (None until then). -/
structure CDCACMHandle where
  device : UsbDevice
  interface : Nat
  endpoint : Nat
  count : Nat
  readhandle : Option Endpoint
  writehandle : Option Endpoint
deriving DecidableEq, Repr

/-- CDCACMHandle.__init__(device, debug). -/
def CDCACMHandle.init (device : UsbDevice) (debug : Bool) : CDCACMHandle :=
  ⟨device, if debug then DEBUG_INTERFACE else INTERFACE,
   if debug then DEBUG_ENDPOINT else ENDPOINT, 0, none, none⟩

/-- The `for ... if ...: break` search in open(): first interface of the
active configuration with the given class code. -/
def findClass (cls : Nat) : List Interface → Option Interface
  | [] => none
  | i :: rest => if i.bInterfaceClass == cls then some i else findClass cls rest

/-- Python leaks the loop variable: after the first loop of open(),
`control` is the first communications-class interface if one exists,
otherwise the last interface iterated (undefined if there are none,
which surfaces as a NameError at the control transfer and is swallowed
by the bare except). -/
def controlVar (ifs : List Interface) : Option Interface :=
  match findClass CLASS_COMM ifs with
  | some i => some i
  | none => ifs.getLast?

/-- The inner endpoint loop of open(): an IN-direction endpoint is
assigned to readhandle, any other endpoint to writehandle; later
endpoints overwrite earlier ones. -/
def assignEndpoints : List Endpoint → Option Endpoint × Option Endpoint →
    Option Endpoint × Option Endpoint
  | [], acc => acc
  | e :: rest, (r, w) =>
    if endpoint_direction e.bEndpointAddress == ENDPOINT_IN then
      assignEndpoints rest (some e, w)
    else
      assignEndpoints rest (r, some e)

/-- A USB class control transfer as issued by device.ctrl_transfer:
request type, request, wValue, wIndex and the optional data payload. -/
structure Transfer where
  bmRequestType : Nat
  bRequest : Nat
  wValue : Nat
  wIndex : Nat
  payload : Option (List Nat)
deriving DecidableEq, Repr

/-- Environment for open(): whether each of the two control transfers
would succeed on this host (the source swallows their failures). -/
structure OpenEnv where
  ctrl1Ok : Bool
  ctrl2Ok : Bool
deriving DecidableEq, Repr

/-- Result of CDCACMHandle.open(): the updated handle or an error, the
list of control transfers actually attempted, and the indices of the
interfaces whose kernel drivers were detached. -/
structure OpenResult where
  outcome : Except TErr CDCACMHandle
  transfers : List Transfer
  detached : List Nat
deriving Repr

/-- CDCACMHandle.open(): finds the communications-class interface and
detaches its kernel driver; finds the data-class interface, detaches its
kernel driver and assigns its IN endpoint to readhandle and its other
endpoint to writehandle; raises IOError if readhandle or writehandle is
still None; then attempts SET_CONTROL_LINE_STATE and SET_LINE_CODING
control transfers inside a bare try/except whose failures are swallowed
(the second transfer is only attempted when the first succeeded, and a
NameError from a missing `control` variable is swallowed the same way). -/
def openRW (h : CDCACMHandle) : Option Endpoint × Option Endpoint :=
  match findClass CLASS_DATA h.device.interfaces with
  | some i => assignEndpoints i.endpoints (h.readhandle, h.writehandle)
  | none => (h.readhandle, h.writehandle)

/-- The kernel-driver detaches performed by the two loops of open(): the
first communications-class interface and the first data-class interface,
each when a kernel driver is bound to it. -/
def openDetached (h : CDCACMHandle) : List Nat :=
  (match findClass CLASS_COMM h.device.interfaces with
    | some i => if i.kernelActive then [i.index] else []
    | none => []) ++
  (match findClass CLASS_DATA h.device.interfaces with
    | some i => if i.kernelActive then [i.index] else []
    | none => [])

/-- The control transfers attempted by the try block of open():
SET_CONTROL_LINE_STATE with DTR and RTS set, then — only when the first
transfer did not raise — SET_LINE_CODING with the fixed 7-byte 9600 8N1
descriptor; nothing when the leaked `control` variable is unbound
(NameError inside the try). -/
def openTransfers (h : CDCACMHandle) (env : OpenEnv) : List Transfer :=
  match controlVar h.device.interfaces with
  | none => []
  | some ci =>
    if env.ctrl1Ok then
      [⟨0x21, 0x22, 0x01 ||| 0x02, ci.index, none⟩,
       ⟨0x21, 0x20, 0, ci.index,
        some [0x80, 0x25, 0x00, 0x00, 0x00, 0x00, 0x08]⟩]
    else [⟨0x21, 0x22, 0x01 ||| 0x02, ci.index, none⟩]

def CDCACMHandle.openDev (h : CDCACMHandle) (env : OpenEnv) : OpenResult :=
  if (openRW h).1.isNone || (openRW h).2.isNone then
    ⟨Except.error TErr.transportUnavailable, [], openDetached h⟩
  else
    ⟨Except.ok { h with readhandle := (openRW h).1, writehandle := (openRW h).2 },
     openTransfers h env, openDetached h⟩

/-- CDCACMHandle.close(): its body is `pass` (the interface-release code
is commented out under a TODO). It changes nothing and releases nothing;
the second component is the list of released interfaces, always empty. -/
def CDCACMHandle.close (h : CDCACMHandle) : CDCACMHandle × List Nat := (h, [])

/-- CDCACMHandle.write_chunk(chunk): asserts writehandle is not None,
raises TransportException if the chunk length differs from 64, otherwise
performs a single write to the OUT endpoint. The ok value is the list of
writes performed (always a single one). -/
def write_chunk (writehandle : Option Endpoint) (chunk : List Nat) :
    Except TErr (List (List Nat)) :=
  match writehandle with
  | none => Except.error TErr.assertionFailed
  | some _ =>
    if chunk.length ≠ 64 then Except.error (TErr.framing chunk.length)
    else Except.ok [chunk]

/-- Outcome of the read_chunk accumulation loop. `blocked` models the
real code blocking forever in readhandle.read when the device delivers
no further piece. -/
inductive ReadOutcome
  | ok (chunk : List Nat)
  | framing (n : Nat)
  | blocked
deriving DecidableEq, Repr

/-- The read_chunk loop body over the sequence of pieces the IN endpoint
delivers: accumulate the next piece; below 64 bytes sleep 1 ms and
retry; at exactly 64 stop; above 64 raise TransportException. Returns
the outcome, the number of pieces consumed, and the number of 1 ms
sleeps performed. -/
def read_chunk_go (chunk : List Nat) : List (List Nat) → ReadOutcome × Nat × Nat
  | [] => (ReadOutcome.blocked, 0, 0)
  | p :: rest =>
    if (chunk ++ p).length < 64 then
      ((read_chunk_go (chunk ++ p) rest).1,
       (read_chunk_go (chunk ++ p) rest).2.1 + 1,
       (read_chunk_go (chunk ++ p) rest).2.2 + 1)
    else if (chunk ++ p).length = 64 then (ReadOutcome.ok (chunk ++ p), 1, 0)
    else (ReadOutcome.framing (chunk ++ p).length, 1, 0)

/-- CDCACMHandle.read_chunk(): starts from the empty accumulator. -/
def read_chunk (pieces : List (List Nat)) : ReadOutcome × Nat × Nat :=
  read_chunk_go [] pieces

/-- CDCACMTransport state: the device, the handle, the debug flag, and
the protocol engine version. The source constructor always installs
ProtocolV1; the version field is read by find_debug. -/
structure CDCACMTransport where
  device : UsbDevice
  handle : CDCACMHandle
  debug : Bool
  protocolVersion : Nat
deriving DecidableEq, Repr

/-- CDCACMTransport.__init__(device, handle=None, debug=False): builds a
fresh CDCACMHandle when none is supplied. Modelled from the spec: the
installed ProtocolV1 engine (protocol.py is not part of the sources at
hand) negotiates protocol version 1, so the constructor records
protocolVersion 1. -/
def CDCACMTransport.init (device : UsbDevice) (handle : Option CDCACMHandle)
    (debug : Bool) : CDCACMTransport :=
  ⟨device, handle.getD (CDCACMHandle.init device debug), debug, 1⟩

/-- CDCACMTransport.get_path(): the prefix cdcacm, the bus number and
the device address, colon-separated with three-digit zero padding. -/
def padNum3 (n : Nat) : String :=
  if n < 10 then "00" ++ toString n
  else if n < 100 then "0" ++ toString n
  else toString n

def CDCACMTransport.get_path (t : CDCACMTransport) : String :=
  "cdcacm:" ++ padNum3 t.device.bus ++ ":" ++ padNum3 t.device.address

/-- CDCACMTransport.get_usb_vendor_id(). -/
def CDCACMTransport.get_usb_vendor_id (t : CDCACMTransport) : Int :=
  t.device.idVendor

/-- usb.core.find(idVendor=vid, idProduct=pid) without find_all: the
first device on the bus with the matching identity, or None. -/
def usb_core_find (bus : List UsbDevice) (vid pid : Int) : Option UsbDevice :=
  bus.find? (fun d => d.idVendor == vid && d.idProduct == pid)

/-- CDCACMTransport.enumerate(): queries the bus for the fixed
(vendor ID, product ID) pair; if the query matched nothing, the device
list stays empty; otherwise iterating the returned pyusb Device yields
its configurations, and each configuration's back-pointer `.device`
(the same physical device) is wrapped in a fresh transport. -/
def CDCACMTransport.enumerate (bus : List UsbDevice) (vid pid : Int) :
    List CDCACMTransport :=
  match usb_core_find bus vid pid with
  | none => []
  | some d =>
    (List.range d.numConfigurations).map
      (fun _ => CDCACMTransport.init d none false)

/-- CDCACMTransport.find_debug(): with protocol version at least 2,
wraps the same handle in a new transport (the debug argument is left at
its default False); with version 1, builds a new transport with a fresh
handle bound to the debug interface and endpoint constants. There is no
check that the device exposes a debug interface and no failure path. -/
def CDCACMTransport.find_debug (t : CDCACMTransport) : CDCACMTransport :=
  if t.protocolVersion ≥ 2 then
    CDCACMTransport.init t.device (some t.handle) false
  else
    CDCACMTransport.init t.device none true

end HWI

namespace STM32F4

open HWI

/-- Structured error codes carried in a DeviceRecord. The concrete
integer constants live in hwilib.errors, outside the sources at hand;
they are modellable only as distinct caller-matchable tags. -/
inductive ErrCode
  | deviceNotInitialized
  | deviceNotReady
  | unknownFailure
deriving DecidableEq, Repr

/-- A value stored in a DeviceRecord mapping. -/
inductive Value
  | str (s : String)
  | bool (b : Bool)
  | code (c : ErrCode)
deriving DecidableEq, Repr

/-- A DeviceRecord: the d_data dictionary, as an insertion-ordered
association list with Python-dict overwrite semantics. -/
abbrev Record := List (String × Value)

/-- Python dict assignment d[k] = v: overwrite in place if the key
exists (record keys are unique by construction), append otherwise. -/
def rset : Record → String → Value → Record
  | [], k, v => [(k, v)]
  | p :: rest, k, v =>
    if p.1 == k then (k, v) :: rest else p :: rset rest k v

/-- Python dict lookup d[k]. -/
def rget (r : Record) (k : String) : Option Value :=
  (r.find? (fun p => p.1 == k)).map Prod.snd

/-- Does the second character list start the first? -/
def charsStart : List Char → List Char → Bool
  | _, [] => true
  | [], _ :: _ => false
  | c :: cs, d :: ds => c == d && charsStart cs ds

/-- Is the second character list a contiguous run inside the first? -/
def charsHave : List Char → List Char → Bool
  | [], needle => needle.isEmpty
  | c :: rest, needle => charsStart (c :: rest) needle || charsHave rest needle

/-- Python `needle in hay` on strings: needle occurs as a contiguous
substring of hay. -/
def strContains (hay needle : String) : Bool :=
  charsHave hay.data needle.data

/-- The features object reported by the device client (the narrow
collaborator contract consumed by enumerate). -/
structure Features where
  vendor : String
  pin_protection : Bool
  pin_cached : Bool
  passphrase_protection : Bool
  initialized : Bool
deriving DecidableEq, Repr

/-- One candidate device as the probe observes it: its transport-level
USB vendor id and path, whether the client constructor raises (transport
never opened), whether init_device raises after the client opened, the
features it reports, and the fingerprint the pubkey fetch would yield. -/
structure DevUnderProbe where
  usbVendorId : Int
  path : String
  connectFails : Bool
  initFails : Bool
  features : Features
  xpubFingerprint : String
deriving DecidableEq, Repr

/-- Outcome of one iteration of the enumerate loop: the record appended
to the results (none when the iteration hit a `continue`), how many
times client.close() ran, and whether get_pubkey_at_path was invoked. -/
structure ProbeOutcome where
  record : Option Record
  closeCount : Nat
  pubkeyFetched : Bool
deriving DecidableEq, Repr

/-- Modelled from the spec: handle_errors (hwilib.errors, not among the
sources at hand) catches an exception raised inside the with-block,
stores its message under the error key and its structured code under the
code key of the result record, and suppresses it. -/
def tagError (r : Record) (msg : String) (c : ErrCode) : Record :=
  rset (rset r "error" (Value.str msg)) "code" (Value.code c)

/-- The d_data dictionary as seeded before the handle_errors block:
type, model and path are set before any fallible probe step runs. -/
def seedRecord (path : String) : Record :=
  [("type", Value.str "stm32f4"),
   ("model", Value.str "stm32f4"),
   ("path", Value.str path)]

/-- The simulator special case: when the path is the fixed UDP
simulator address, the model value gets the _simulator suffix. -/
def adjustModel (path : String) (r : Record) : Record :=
  if path == "udp:127.0.0.1:21324" then
    match rget r "model" with
    | some (Value.str m) => rset r "model" (Value.str (m ++ "_simulator"))
    | _ => r
  else r

/-- The body of one iteration of stm32f4.enumerate, in source order:
the vendor-id filter (`continue` before any client exists); d_data
seeded with type, model, path; the handle_errors block containing client
construction, init_device, the vendor-string check whose `continue`
jumps past client.close(), the simulator model suffix, the needs-pin and
needs-passphrase flags, the DeviceNotReadyError raises, and the
initialized/uninitialized split; then `if client: client.close()` and
the append — both skipped by the vendor-string `continue`. -/
def probeOne (vendorIds : List Int) (password : String) (dev : DevUnderProbe) :
    ProbeOutcome :=
  if ¬ (dev.usbVendorId ∈ vendorIds ∨ dev.usbVendorId = -1) then
    ⟨none, 0, false⟩
  else
    let d0 : Record := seedRecord dev.path
    if dev.connectFails then
      ⟨some (tagError d0 "Could not open client or get fingerprint information"
              ErrCode.unknownFailure), 0, false⟩
    else if dev.initFails then
      ⟨some (tagError d0 "Could not open client or get fingerprint information"
              ErrCode.unknownFailure), 1, false⟩
    else if ¬ strContains dev.features.vendor "STMicroelectronics" then
      ⟨none, 0, false⟩
    else
      let d1 := adjustModel dev.path d0
      let needsPin := dev.features.pin_protection && !dev.features.pin_cached
      let d2 := rset d1 "needs_pin_sent" (Value.bool needsPin)
      let needsPass := dev.features.passphrase_protection
      let d3 := rset d2 "needs_passphrase_sent" (Value.bool needsPass)
      if needsPin then
        ⟨some (tagError d3
            "STM32F4 is locked. Unlock by using \x27promptpin\x27 and then \x27sendpin\x27."
            ErrCode.deviceNotReady), 1, false⟩
      else if needsPass && password == "" then
        ⟨some (tagError d3
            "Passphrase needs to be specified before the fingerprint information can be retrieved"
            ErrCode.deviceNotReady), 1, false⟩
      else if dev.features.initialized then
        let d4 := rset d3 "fingerprint" (Value.str dev.xpubFingerprint)
        let d5 := rset d4 "needs_passphrase_sent" (Value.bool false)
        ⟨some d5, 1, true⟩
      else
        ⟨some (rset (rset d3 "error" (Value.str "Not initialized"))
                "code" (Value.code ErrCode.deviceNotInitialized)), 1, false⟩

/-- stm32f4.enumerate(password): probes each device delivered by
enumerate_devices in order and collects the appended records. -/
def enumerate (vendorIds : List Int) (password : String)
    (devs : List DevUnderProbe) : List Record :=
  (devs.map (probeOne vendorIds password)).filterMap ProbeOutcome.record

end STM32F4

/-! ## Helper lemmas for read_chunk -/

namespace HWI

theorem read_chunk_go_ok (pieces : List (List Nat)) :
    ∀ chunk c n s, chunk.length < 64 →
      read_chunk_go chunk pieces = (ReadOutcome.ok c, n, s) →
      c.length = 64 ∧ c = chunk ++ (pieces.take n).flatten ∧ n = s + 1 := by
  induction pieces with
  | nil =>
    intro chunk c n s _ h
    simp [read_chunk_go] at h
  | cons p rest ih =>
    intro chunk c n s hlen h
    rw [read_chunk_go] at h
    by_cases h1 : (chunk ++ p).length < 64
    · rw [if_pos h1] at h
      rcases hx : read_chunk_go (chunk ++ p) rest with ⟨o, n0, s0⟩
      rw [hx] at h
      simp only [Prod.mk.injEq] at h
      obtain ⟨ho, hn, hs⟩ := h
      obtain ⟨hc64, hc, hns⟩ := ih (chunk ++ p) c n0 s0 h1 (by rw [hx, ho])
      refine ⟨hc64, ?_, ?_⟩
      · subst hn
        simp [List.take_succ_cons, List.flatten, hc, List.append_assoc]
      · omega
    · rw [if_neg h1] at h
      by_cases h2 : (chunk ++ p).length = 64
      · rw [if_pos h2] at h
        simp only [Prod.mk.injEq, ReadOutcome.ok.injEq] at h
        obtain ⟨hc, hn, hs⟩ := h
        refine ⟨by rw [← hc]; exact h2, ?_, by omega⟩
        subst hn
        simp [List.take_succ_cons, List.flatten, hc]
      · rw [if_neg h2] at h
        simp at h

theorem read_chunk_go_framing (pieces : List (List Nat)) :
    ∀ chunk m n s, chunk.length < 64 →
      read_chunk_go chunk pieces = (ReadOutcome.framing m, n, s) →
      64 < m ∧ m = (chunk ++ (pieces.take n).flatten).length := by
  induction pieces with
  | nil =>
    intro chunk m n s _ h
    simp [read_chunk_go] at h
  | cons p rest ih =>
    intro chunk m n s hlen h
    rw [read_chunk_go] at h
    by_cases h1 : (chunk ++ p).length < 64
    · rw [if_pos h1] at h
      rcases hx : read_chunk_go (chunk ++ p) rest with ⟨o, n0, s0⟩
      rw [hx] at h
      simp only [Prod.mk.injEq] at h
      obtain ⟨ho, hn, hs⟩ := h
      obtain ⟨hm, hlen'⟩ := ih (chunk ++ p) m n0 s0 h1 (by rw [hx, ho])
      refine ⟨hm, ?_⟩
      subst hn
      simp [List.take_succ_cons, List.flatten, List.append_assoc] at hlen' ⊢
      omega
    · rw [if_neg h1] at h
      by_cases h2 : (chunk ++ p).length = 64
      · rw [if_pos h2] at h
        simp at h
      · rw [if_neg h2] at h
        simp only [Prod.mk.injEq, ReadOutcome.framing.injEq] at h
        obtain ⟨hm, hn, hs⟩ := h
        subst hn
        constructor
        · omega
        · simp [List.take_succ_cons, List.flatten, ← hm]

theorem read_chunk_go_overshoot (pieces : List (List Nat)) :
    ∀ chunk n, chunk.length < 64 →
      64 < (chunk ++ (pieces.take (n + 1)).flatten).length →
      (chunk ++ (pieces.take n).flatten).length < 64 →
      (read_chunk_go chunk pieces).1 =
        ReadOutcome.framing (chunk ++ (pieces.take (n + 1)).flatten).length := by
  induction pieces with
  | nil =>
    intro chunk n hlen hover hunder
    simp [List.take_nil] at hover hunder
    omega
  | cons p rest ih =>
    intro chunk n hlen hover hunder
    rw [read_chunk_go]
    cases n with
    | zero =>
      simp only [List.take_succ_cons, List.take_zero, List.flatten, List.flatten_nil,
        List.append_nil] at hover hunder
      have h1 : ¬ (chunk ++ p).length < 64 := by
        simp [List.length_append] at hover ⊢
        omega
      have h2 : ¬ (chunk ++ p).length = 64 := by
        simp [List.length_append] at hover ⊢
        omega
      rw [if_neg h1, if_neg h2]
      simp [List.take_succ_cons, List.flatten]
    | succ k =>
      simp only [List.take_succ_cons, List.flatten] at hover hunder
      have h1 : (chunk ++ p).length < 64 := by
        have := hunder
        simp [List.length_append] at this ⊢
        omega
      rw [if_pos h1]
      have := ih (chunk ++ p) k h1
        (by simpa [List.append_assoc, List.length_append] using hover)
        (by simpa [List.append_assoc, List.length_append] using hunder)
      simpa [List.take_succ_cons, List.flatten, List.append_assoc] using this

end HWI

/-- C1: for every sequence of pieces the IN endpoint delivers,
read_chunk only ever returns a chunk of exactly 64 bytes which is
byte-for-byte the concatenation of the pieces it consumed, with a 1 ms
back-off sleep after each of the partial reads (one fewer sleeps than
reads); and whenever the accumulated bytes overshoot 64, it raises the
FramingError carrying the overshot size instead of truncating. -/
theorem claim_C1_read_chunk (pieces : List (List Nat)) :
    (∀ c n s, HWI.read_chunk pieces = (HWI.ReadOutcome.ok c, n, s) →
      c.length = 64 ∧ c = (pieces.take n).flatten ∧ n = s + 1)
    ∧ (∀ m n s, HWI.read_chunk pieces = (HWI.ReadOutcome.framing m, n, s) →
      64 < m ∧ m = ((pieces.take n).flatten).length)
    ∧ (∀ n, 64 < ((pieces.take (n + 1)).flatten).length →
      ((pieces.take n).flatten).length < 64 →
      (HWI.read_chunk pieces).1 =
        HWI.ReadOutcome.framing ((pieces.take (n + 1)).flatten).length) := by
  refine ⟨?_, ?_, ?_⟩
  · intro c n s h
    have := HWI.read_chunk_go_ok pieces [] c n s (by simp) h
    simpa using this
  · intro m n s h
    have := HWI.read_chunk_go_framing pieces [] m n s (by simp) h
    simpa using this
  · intro n hover hunder
    have := HWI.read_chunk_go_overshoot pieces [] n (by simp)
      (by simpa using hover) (by simpa using hunder)
    simpa using this

/-- Witness for C1 at a concrete two-piece delivery of 30 then 34
bytes: the assembled chunk is their concatenation, has length 64, and
one sleep separated the two reads. -/
theorem claim_C1_read_chunk_witness :
    (List.replicate 30 1 ++ List.replicate 34 2).length = 64
    ∧ List.replicate 30 1 ++ List.replicate 34 2 =
        (([List.replicate 30 1, List.replicate 34 2].take 2).flatten)
    ∧ 2 = 1 + 1 :=
  (claim_C1_read_chunk [List.replicate 30 1, List.replicate 34 2]).1
    (List.replicate 30 1 ++ List.replicate 34 2) 2 1 rfl

/-- C2: with the OUT endpoint assigned, write_chunk fails with the
FramingError exactly when the chunk length differs from 64, and on a
64-byte chunk performs exactly one write of that chunk with no retry. -/
theorem claim_C2_write_chunk (e : HWI.Endpoint) (chunk : List Nat) :
    (HWI.write_chunk (some e) chunk = Except.error (HWI.TErr.framing chunk.length)
      ↔ chunk.length ≠ 64)
    ∧ (chunk.length = 64 → HWI.write_chunk (some e) chunk = Except.ok [chunk]) := by
  constructor
  · constructor
    · intro h hlen
      rw [HWI.write_chunk, if_neg (by simpa using hlen)] at h
      simp at h
    · intro hlen
      rw [HWI.write_chunk, if_pos hlen]
  · intro hlen
    rw [HWI.write_chunk, if_neg (by simp [hlen])]

/-- Witness for C2 at a concrete 64-byte chunk: a single write is
performed. -/
theorem claim_C2_write_chunk_witness :
    HWI.write_chunk (some ⟨0x01⟩) (List.replicate 64 0) =
      Except.ok [List.replicate 64 0] :=
  (claim_C2_write_chunk ⟨0x01⟩ (List.replicate 64 0)).2 rfl

/-! ## Shared concrete fixtures -/

namespace HWI

/-- A concrete IN endpoint (address with the direction bit set). -/
def epIn : Endpoint := ⟨0x81⟩

/-- A concrete OUT endpoint. -/
def epOut : Endpoint := ⟨0x01⟩

/-- A concrete data-class interface carrying one IN and one OUT
endpoint. -/
def dataIntf : Interface := ⟨CLASS_DATA, 1, true, [epIn, epOut]⟩

/-- A concrete communications-class interface. -/
def commIntf : Interface := ⟨CLASS_COMM, 0, true, []⟩

/-- A device with the expected CDC ACM class layout. -/
def devFull : UsbDevice := ⟨1, 4, 1155, 22336, 1, [commIntf, dataIntf]⟩

/-- A device whose communications-class interface is absent but whose
data-class interface carries both endpoints. -/
def devNoComm : UsbDevice := ⟨1, 4, 1155, 22336, 1, [dataIntf]⟩

end HWI

/-- C5 counterexample: on a handle whose endpoints were discovered by
open (an opened channel holding claimed interfaces), close returns the
state unchanged and its list of released interfaces is empty — the
claimed interfaces are not released, contradicting the claim that
close() releases them. -/
theorem claim_C5_close_counterexample :
    HWI.CDCACMHandle.close
        ⟨HWI.devFull, 0, 1, 0, some HWI.epIn, some HWI.epOut⟩ =
      (⟨HWI.devFull, 0, 1, 0, some HWI.epIn, some HWI.epOut⟩, [])
    ∧ (HWI.CDCACMHandle.close
        ⟨HWI.devFull, 0, 1, 0, some HWI.epIn, some HWI.epOut⟩).1.readhandle =
      some HWI.epIn := by
  constructor <;> rfl

/-- C5 amended: close() is a no-op — it releases nothing (the release
code is commented out under a TODO) — and is therefore trivially
idempotent and safe on a never-opened or already-closed channel: it
never fails, leaves the state unchanged, and its released-resources
list is empty on every call, so nothing is ever released twice. -/
theorem claim_C5_close_noop (h : HWI.CDCACMHandle) :
    HWI.CDCACMHandle.close h = (h, [])
    ∧ HWI.CDCACMHandle.close (HWI.CDCACMHandle.close h).1 =
        HWI.CDCACMHandle.close h := by
  constructor <;> rfl

/-- C9: when no device on the bus matches the fixed vendor/product
identity, enumerate returns the empty sequence (and returns normally
rather than failing). -/
theorem claim_C9_enumerate_empty (bus : List HWI.UsbDevice) (vid pid : Int)
    (hnone : ∀ d ∈ bus, ¬(d.idVendor = vid ∧ d.idProduct = pid)) :
    HWI.CDCACMTransport.enumerate bus vid pid = [] := by
  have hfind : HWI.usb_core_find bus vid pid = none := by
    rw [HWI.usb_core_find, List.find?_eq_none]
    intro d hd
    have := hnone d hd
    simp only [Bool.and_eq_true, beq_iff_eq]
    intro hcontra
    exact this ⟨hcontra.1, hcontra.2⟩
  rw [HWI.CDCACMTransport.enumerate, hfind]

/-- Witness for C9: a bus holding one device with a different product
id yields the empty sequence. -/
theorem claim_C9_enumerate_empty_witness :
    HWI.CDCACMTransport.enumerate [HWI.devFull] 1155 9999 = [] :=
  claim_C9_enumerate_empty [HWI.devFull] 1155 9999 (by decide)

namespace HWI

theorem assignEndpoints_dirs (eps : List Endpoint) :
    ∀ r w : Option Endpoint,
      (∀ e, r = some e → endpoint_direction e.bEndpointAddress = ENDPOINT_IN) →
      (∀ e, w = some e → endpoint_direction e.bEndpointAddress ≠ ENDPOINT_IN) →
      (∀ e, (assignEndpoints eps (r, w)).1 = some e →
        endpoint_direction e.bEndpointAddress = ENDPOINT_IN)
      ∧ (∀ e, (assignEndpoints eps (r, w)).2 = some e →
        endpoint_direction e.bEndpointAddress ≠ ENDPOINT_IN) := by
  induction eps with
  | nil =>
    intro r w hr hw
    exact ⟨hr, hw⟩
  | cons e rest ih =>
    intro r w hr hw
    rw [assignEndpoints]
    by_cases hd : endpoint_direction e.bEndpointAddress == ENDPOINT_IN
    · rw [if_pos hd]
      exact ih (some e) w
        (fun e' he' => by cases he'; exact by simpa using hd) hw
    · rw [if_neg hd]
      exact ih r (some e) hr
        (fun e' he' => by cases he'; exact by simpa using hd)

theorem openDev_outcome_env_free (h : CDCACMHandle) (env env' : OpenEnv) :
    (h.openDev env).outcome = (h.openDev env').outcome := by
  rw [CDCACMHandle.openDev, CDCACMHandle.openDev]
  by_cases hc : ((openRW h).1.isNone || (openRW h).2.isNone) = true
  · rw [if_pos hc, if_pos hc]
  · rw [if_neg hc, if_neg hc]

end HWI

/-- C4 counterexample: a device whose communications-class interface is
missing but whose data-class interface carries an IN and an OUT
endpoint. The claim requires open() to fail with TransportUnavailable
here; the code succeeds, because only the endpoint handles are checked
before the raise, never the communications interface. -/
theorem claim_C4_open_counterexample :
    HWI.findClass HWI.CLASS_COMM HWI.devNoComm.interfaces = none
    ∧ ((HWI.CDCACMHandle.init HWI.devNoComm false).openDev ⟨true, true⟩).outcome =
        Except.ok ⟨HWI.devNoComm, 0, 1, 0, some HWI.epIn, some HWI.epOut⟩ := by
  constructor <;> rfl

/-- C4 amended: open() fails with TransportUnavailable exactly when the
endpoint discovery on the data-class interface leaves the read or the
write handle unassigned — in particular when the data-class interface
itself is missing; when both are found, open() succeeds and assigns the
IN-direction endpoint to read and the non-IN endpoint to write. Absence
of the communications-class interface alone does not make open() fail. -/
theorem claim_C4_open_endpoints (h : HWI.CDCACMHandle) (env : HWI.OpenEnv)
    (hr : h.readhandle = none) (hw : h.writehandle = none) :
    ((h.openDev env).outcome = Except.error HWI.TErr.transportUnavailable ↔
      ((HWI.openRW h).1 = none ∨ (HWI.openRW h).2 = none))
    ∧ (∀ e1 e2, (HWI.openRW h).1 = some e1 → (HWI.openRW h).2 = some e2 →
        (h.openDev env).outcome =
          Except.ok { h with readhandle := some e1, writehandle := some e2 })
    ∧ (∀ e, (HWI.openRW h).1 = some e →
        HWI.endpoint_direction e.bEndpointAddress = HWI.ENDPOINT_IN)
    ∧ (∀ e, (HWI.openRW h).2 = some e →
        HWI.endpoint_direction e.bEndpointAddress ≠ HWI.ENDPOINT_IN)
    ∧ (HWI.findClass HWI.CLASS_DATA h.device.interfaces = none →
        (h.openDev env).outcome = Except.error HWI.TErr.transportUnavailable) := by
  have hdirs : (∀ e, (HWI.openRW h).1 = some e →
        HWI.endpoint_direction e.bEndpointAddress = HWI.ENDPOINT_IN)
      ∧ (∀ e, (HWI.openRW h).2 = some e →
        HWI.endpoint_direction e.bEndpointAddress ≠ HWI.ENDPOINT_IN) := by
    rw [HWI.openRW, hr, hw]
    rcases hd : HWI.findClass HWI.CLASS_DATA h.device.interfaces with _ | i
    · constructor <;> intro e he <;> simp at he
    · exact HWI.assignEndpoints_dirs i.endpoints none none
        (fun e he => by simp at he) (fun e he => by simp at he)
  refine ⟨?_, ?_, hdirs.1, hdirs.2, ?_⟩
  · rw [HWI.CDCACMHandle.openDev]
    by_cases hc : ((HWI.openRW h).1.isNone || (HWI.openRW h).2.isNone) = true
    · rw [if_pos hc]
      simp only [Bool.or_eq_true, Option.isNone_iff_eq_none] at hc
      simpa using hc
    · rw [if_neg hc]
      simp only [Bool.or_eq_true, Option.isNone_iff_eq_none] at hc
      push_neg at hc
      constructor
      · intro hcontra
        exact absurd hcontra (by simp)
      · intro hor
        rcases hor with h1 | h1
        · exact absurd h1 hc.1
        · exact absurd h1 hc.2
  · intro e1 e2 h1 h2
    rw [HWI.CDCACMHandle.openDev, if_neg (by simp [h1, h2]), h1, h2]
  · intro hd
    rw [HWI.CDCACMHandle.openDev, if_pos (by rw [HWI.openRW, hd, hr, hw]; rfl)]

/-- Witness for C4 at the full class layout: both endpoints are found,
open succeeds and assigns the IN endpoint to read and the OUT endpoint
to write. -/
theorem claim_C4_open_endpoints_witness :
    ((HWI.CDCACMHandle.init HWI.devFull false).openDev ⟨true, true⟩).outcome =
      Except.ok { HWI.CDCACMHandle.init HWI.devFull false with
                  readhandle := some HWI.epIn, writehandle := some HWI.epOut } :=
  (claim_C4_open_endpoints (HWI.CDCACMHandle.init HWI.devFull false)
    ⟨true, true⟩ rfl rfl).2.1 HWI.epIn HWI.epOut rfl rfl

/-- C8: when open() reaches a successful end on a device whose
communications-class interface was found and whose first control
transfer is supported by the host, the attempted control transfers are
exactly SET_CONTROL_LINE_STATE (bmRequestType 0x21, bRequest 0x22,
wValue DTR or-ed with RTS, wIndex the interface index, no payload) and
SET_LINE_CODING (bRequest 0x20) with the exact 7-byte 9600 8N1 payload;
and whatever control transfers fail on the host, the outcome of open()
is unchanged — the failure is swallowed. -/
theorem claim_C8_open_ctrl (h : HWI.CDCACMHandle) (env : HWI.OpenEnv)
    (ci : HWI.Interface)
    (hcomm : HWI.findClass HWI.CLASS_COMM h.device.interfaces = some ci)
    (hok1 : env.ctrl1Ok = true)
    (hsucc : ((h.openDev env).outcome).isOk = true) :
    (h.openDev env).transfers =
      [⟨0x21, 0x22, 0x01 ||| 0x02, ci.index, none⟩,
       ⟨0x21, 0x20, 0, ci.index, some [0x80, 0x25, 0x00, 0x00, 0x00, 0x00, 0x08]⟩]
    ∧ ∀ env' : HWI.OpenEnv, (h.openDev env').outcome = (h.openDev env).outcome := by
  refine ⟨?_, fun env' => HWI.openDev_outcome_env_free h env' env⟩
  rw [HWI.CDCACMHandle.openDev] at hsucc ⊢
  by_cases hc : ((HWI.openRW h).1.isNone || (HWI.openRW h).2.isNone) = true
  · rw [if_pos hc] at hsucc
    simp [Except.isOk, Except.toBool] at hsucc
  · rw [if_neg hc]
    show HWI.openTransfers h env = _
    rw [HWI.openTransfers, HWI.controlVar, hcomm]
    simp [hok1]

/-- Witness for C8 at the full class layout with a supporting host: the
two transfers are attempted bit-exactly, and an environment where both
transfers fail yields the same open() outcome. -/
theorem claim_C8_open_ctrl_witness :
    ((HWI.CDCACMHandle.init HWI.devFull false).openDev ⟨true, true⟩).transfers =
      [⟨0x21, 0x22, 0x01 ||| 0x02, 0, none⟩,
       ⟨0x21, 0x20, 0, 0, some [0x80, 0x25, 0x00, 0x00, 0x00, 0x00, 0x08]⟩]
    ∧ ∀ env' : HWI.OpenEnv,
      ((HWI.CDCACMHandle.init HWI.devFull false).openDev env').outcome =
        ((HWI.CDCACMHandle.init HWI.devFull false).openDev ⟨true, true⟩).outcome :=
  claim_C8_open_ctrl (HWI.CDCACMHandle.init HWI.devFull false) ⟨true, true⟩
    HWI.commIntf rfl rfl rfl

namespace STM32F4

theorem rget_nil (q : String) : rget [] q = none := rfl

theorem rget_cons (p : String × Value) (rest : Record) (q : String) :
    rget (p :: rest) q = if p.1 == q then some p.2 else rget rest q := by
  cases h : (p.1 == q) <;> simp [rget, List.find?, h]

theorem rget_rset (r : Record) (k : String) (v : Value) (q : String) :
    rget (rset r k v) q = if q = k then some v else rget r q := by
  induction r with
  | nil =>
    rw [rset, rget_cons]
    by_cases hq : q = k
    · subst hq
      simp
    · have hq' : ¬ k = q := fun h => hq (Eq.symm h)
      simp [hq, hq', rget_nil]
  | cons p rest ih =>
    rw [rset]
    by_cases hp : (p.1 == k) = true
    · rw [if_pos hp, rget_cons, rget_cons]
      replace hp : p.1 = k := by simpa using hp
      by_cases hq : q = k
      · subst hq
        simp
      · have hq' : ¬ k = q := fun h => hq (Eq.symm h)
        simp [hq, hq', hp]
    · rw [if_neg hp, rget_cons, rget_cons, ih]
      replace hp : ¬ p.1 = k := by simpa using hp
      by_cases hq : q = k
      · subst hq
        simp [by simpa using hp]
      · simp [hq]

theorem keys_rset (r : Record) (k : String) (v : Value)
    (hk : k ≠ "type")
    (h : rget r "type" = some (Value.str "stm32f4")
      ∧ (rget r "model").isSome = true ∧ (rget r "path").isSome = true) :
    rget (rset r k v) "type" = some (Value.str "stm32f4")
    ∧ (rget (rset r k v) "model").isSome = true
    ∧ (rget (rset r k v) "path").isSome = true := by
  obtain ⟨h1, h2, h3⟩ := h
  refine ⟨?_, ?_, ?_⟩
  · rw [rget_rset, if_neg (fun hc => hk (Eq.symm hc))]
    exact h1
  · rw [rget_rset]
    by_cases hm : ("model" : String) = k
    · simp [hm]
    · simpa [hm] using h2
  · rw [rget_rset]
    by_cases hm : ("path" : String) = k
    · simp [hm]
    · simpa [hm] using h3

end STM32F4

/-- C6 counterexample: with protocol version 2 the transport returned
by find_debug carries debug = false (it is not tagged as a Debug
session, contradicting the claim), and with protocol version 1 on a
device exposing no second interface find_debug succeeds and returns a
transport rather than failing with UnsupportedOperation. -/
theorem claim_C6_find_debug_counterexample :
    (HWI.CDCACMTransport.find_debug
        ⟨HWI.devFull, HWI.CDCACMHandle.init HWI.devFull false, false, 2⟩).debug = false
    ∧ HWI.CDCACMTransport.find_debug
        ⟨HWI.devNoComm, HWI.CDCACMHandle.init HWI.devNoComm false, false, 1⟩ =
      ⟨HWI.devNoComm, HWI.CDCACMHandle.init HWI.devNoComm true, true, 1⟩ := by
  constructor <;> rfl

/-- C6 amended: with protocol version at least 2, find_debug returns a
new transport sharing the same chunk-channel handle but carrying
debug = false (the constructor's default — it is not tagged as a Debug
session); with version 1 it builds a transport around a fresh handle
bound to the debug interface and endpoint constants. It never inspects
the device for a debug interface and has no failure path. -/
theorem claim_C6_find_debug (t : HWI.CDCACMTransport) :
    (2 ≤ t.protocolVersion →
      HWI.CDCACMTransport.find_debug t = ⟨t.device, t.handle, false, 1⟩)
    ∧ (t.protocolVersion < 2 →
      HWI.CDCACMTransport.find_debug t =
        ⟨t.device,
         ⟨t.device, HWI.DEBUG_INTERFACE, HWI.DEBUG_ENDPOINT, 0, none, none⟩,
         true, 1⟩) := by
  constructor
  · intro h2
    rw [HWI.CDCACMTransport.find_debug, if_pos h2]
    rfl
  · intro h1
    rw [HWI.CDCACMTransport.find_debug, if_neg (by omega)]
    rfl

/-- Witness for C6 at a concrete version-2 transport: the result shares
the handle and carries debug = false. -/
theorem claim_C6_find_debug_witness :
    HWI.CDCACMTransport.find_debug
        ⟨HWI.devFull, HWI.CDCACMHandle.init HWI.devFull false, true, 2⟩ =
      ⟨HWI.devFull, HWI.CDCACMHandle.init HWI.devFull false, false, 1⟩ :=
  (claim_C6_find_debug
    ⟨HWI.devFull, HWI.CDCACMHandle.init HWI.devFull false, true, 2⟩).1 (by decide)

namespace STM32F4

theorem rget_seed_other (p q : String)
    (h1 : ("type" == q) = false) (h2 : ("model" == q) = false)
    (h3 : ("path" == q) = false) :
    rget (seedRecord p) q = none := by
  rw [seedRecord, rget_cons, if_neg (by simp [h1]), rget_cons,
      if_neg (by simp [h2]), rget_cons, if_neg (by simp [h3]), rget_nil]

theorem rget_seed_type (p : String) :
    rget (seedRecord p) "type" = some (Value.str "stm32f4") := by
  rw [seedRecord, rget_cons, if_pos (by decide)]

theorem rget_seed_model (p : String) :
    rget (seedRecord p) "model" = some (Value.str "stm32f4") := by
  rw [seedRecord, rget_cons, if_neg (by decide), rget_cons, if_pos (by decide)]

theorem rget_seed_path (p : String) :
    rget (seedRecord p) "path" = some (Value.str p) := by
  rw [seedRecord, rget_cons, if_neg (by decide), rget_cons, if_neg (by decide),
      rget_cons, if_pos (by simp)]

theorem rget_adjustModel_other (path : String) (r : Record) (q : String)
    (hq : q ≠ "model") :
    rget (adjustModel path r) q = rget r q := by
  rw [adjustModel]
  by_cases hp : (path == "udp:127.0.0.1:21324") = true
  · rw [if_pos hp]
    rcases hm : rget r "model" with _ | v
    · rfl
    · cases v with
      | str m =>
        show rget (rset r "model" (Value.str (m ++ "_simulator"))) q = rget r q
        rw [rget_rset, if_neg hq]
      | bool b => rfl
      | code c => rfl
  · rw [if_neg hp]

theorem rget_adjustModel_model (path : String) (r : Record)
    (h : (rget r "model").isSome = true) :
    (rget (adjustModel path r) "model").isSome = true := by
  rw [adjustModel]
  by_cases hp : (path == "udp:127.0.0.1:21324") = true
  · rw [if_pos hp]
    rcases hm : rget r "model" with _ | v
    · exact h
    · cases v with
      | str m =>
        show (rget (rset r "model" (Value.str (m ++ "_simulator"))) "model").isSome
          = true
        rw [rget_rset, if_pos rfl]
        rfl
      | bool b => exact h
      | code c => exact h
  · rw [if_neg hp]
    exact h

end STM32F4

/-- The concrete locked device used as the C7 witness input: matching
vendor id, no USB failure, vendor string of the expected family, PIN
protection on, PIN not cached. -/
def devC7 : STM32F4.DevUnderProbe :=
  ⟨1155, "cdcacm:001:004", false, false,
   ⟨"STMicroelectronics Virtual COM Port", true, false, false, true⟩, "fp"⟩

/-- C7: a probed device passing the vendor-id filter and the
vendor-string check without USB failure, whose features report
pin_protection and not pin_cached, always yields the DeviceLocked
failure record (the DeviceNotReadyError lock message and
device-not-ready code, no fingerprint key), and get_pubkey_at_path is
never invoked for it. -/
theorem claim_C7_locked (vendorIds : List Int) (password : String)
    (dev : STM32F4.DevUnderProbe)
    (hvid : dev.usbVendorId ∈ vendorIds ∨ dev.usbVendorId = -1)
    (hconn : dev.connectFails = false) (hinit : dev.initFails = false)
    (hvendor : STM32F4.strContains dev.features.vendor "STMicroelectronics" = true)
    (hpin : dev.features.pin_protection = true)
    (hcached : dev.features.pin_cached = false) :
    (STM32F4.probeOne vendorIds password dev).pubkeyFetched = false
    ∧ ∃ r, (STM32F4.probeOne vendorIds password dev).record = some r
      ∧ STM32F4.rget r "error" = some (STM32F4.Value.str
          "STM32F4 is locked. Unlock by using \x27promptpin\x27 and then \x27sendpin\x27.")
      ∧ STM32F4.rget r "code" =
          some (STM32F4.Value.code STM32F4.ErrCode.deviceNotReady)
      ∧ STM32F4.rget r "fingerprint" = none := by
  simp only [STM32F4.probeOne, hvid, hconn, hinit, hvendor, hpin, hcached,
    not_true, Bool.false_eq_true, Bool.not_false, Bool.and_self, if_false,
    ite_false, ite_true, if_true]
  refine ⟨by trivial, _, rfl, ?_, ?_, ?_⟩
  · rw [STM32F4.tagError, STM32F4.rget_rset, if_neg (by decide),
        STM32F4.rget_rset, if_pos rfl]
  · rw [STM32F4.tagError, STM32F4.rget_rset, if_pos rfl]
  · rw [STM32F4.tagError, STM32F4.rget_rset, if_neg (by decide),
        STM32F4.rget_rset, if_neg (by decide),
        STM32F4.rget_rset, if_neg (by decide),
        STM32F4.rget_rset, if_neg (by decide),
        STM32F4.rget_adjustModel_other _ _ _ (by decide),
        STM32F4.rget_seed_other _ _ (by decide) (by decide) (by decide)]

/-- Witness for C7 at the concrete locked device. -/
theorem claim_C7_locked_witness :
    (STM32F4.probeOne [1155] "" devC7).pubkeyFetched = false
    ∧ ∃ r, (STM32F4.probeOne [1155] "" devC7).record = some r
      ∧ STM32F4.rget r "error" = some (STM32F4.Value.str
          "STM32F4 is locked. Unlock by using \x27promptpin\x27 and then \x27sendpin\x27.")
      ∧ STM32F4.rget r "code" =
          some (STM32F4.Value.code STM32F4.ErrCode.deviceNotReady)
      ∧ STM32F4.rget r "fingerprint" = none :=
  claim_C7_locked [1155] "" devC7 (Or.inl (by decide)) rfl rfl (by decide)
    rfl rfl

namespace STM32F4

theorem keys_seed (p : String) :
    rget (seedRecord p) "type" = some (Value.str "stm32f4")
    ∧ (rget (seedRecord p) "model").isSome = true
    ∧ (rget (seedRecord p) "path").isSome = true := by
  refine ⟨rget_seed_type p, ?_, ?_⟩
  · rw [rget_seed_model]
    rfl
  · rw [rget_seed_path]
    rfl

theorem keys_adjustModel (path : String) (r : Record)
    (h : rget r "type" = some (Value.str "stm32f4")
      ∧ (rget r "model").isSome = true ∧ (rget r "path").isSome = true) :
    rget (adjustModel path r) "type" = some (Value.str "stm32f4")
    ∧ (rget (adjustModel path r) "model").isSome = true
    ∧ (rget (adjustModel path r) "path").isSome = true := by
  refine ⟨?_, rget_adjustModel_model path r h.2.1, ?_⟩
  · rw [rget_adjustModel_other path r "type" (by decide)]
    exact h.1
  · rw [rget_adjustModel_other path r "path" (by decide)]
    exact h.2.2

theorem keys_tagError (r : Record) (msg : String) (c : ErrCode)
    (h : rget r "type" = some (Value.str "stm32f4")
      ∧ (rget r "model").isSome = true ∧ (rget r "path").isSome = true) :
    rget (tagError r msg c) "type" = some (Value.str "stm32f4")
    ∧ (rget (tagError r msg c) "model").isSome = true
    ∧ (rget (tagError r msg c) "path").isSome = true :=
  keys_rset _ "code" _ (by decide) (keys_rset _ "error" _ (by decide) h)

theorem keys_d3 (path : String) (b1 b2 : Bool) :
    rget (rset (rset (adjustModel path (seedRecord path)) "needs_pin_sent"
        (Value.bool b1)) "needs_passphrase_sent" (Value.bool b2)) "type"
      = some (Value.str "stm32f4")
    ∧ (rget (rset (rset (adjustModel path (seedRecord path)) "needs_pin_sent"
        (Value.bool b1)) "needs_passphrase_sent" (Value.bool b2)) "model").isSome
      = true
    ∧ (rget (rset (rset (adjustModel path (seedRecord path)) "needs_pin_sent"
        (Value.bool b1)) "needs_passphrase_sent" (Value.bool b2)) "path").isSome
      = true :=
  keys_rset _ "needs_passphrase_sent" _ (by decide)
    (keys_rset _ "needs_pin_sent" _ (by decide)
      (keys_adjustModel path (seedRecord path) (keys_seed path)))

theorem probeOne_keys (vendorIds : List Int) (password : String)
    (dev : DevUnderProbe) (r : Record)
    (h : (probeOne vendorIds password dev).record = some r) :
    rget r "type" = some (Value.str "stm32f4")
    ∧ (rget r "model").isSome = true ∧ (rget r "path").isSome = true := by
  simp only [probeOne] at h
  split_ifs at h with h1 h2 h3 h4 h5 h6 h7 <;> simp at h <;> subst h
  · exact keys_tagError _ _ _ (keys_seed dev.path)
  · exact keys_tagError _ _ _ (keys_seed dev.path)
  · exact keys_tagError _ _ _ (keys_d3 dev.path _ _)
  · exact keys_tagError _ _ _ (keys_d3 dev.path _ _)
  · exact keys_rset _ "needs_passphrase_sent" _ (by decide)
      (keys_rset _ "fingerprint" _ (by decide) (keys_d3 dev.path _ _))
  · exact keys_rset _ "code" _ (by decide)
      (keys_rset _ "error" _ (by decide) (keys_d3 dev.path _ _))

end STM32F4

/-- C10: every record collected by stm32f4.enumerate — error-tagged
ones included — carries the type key with value stm32f4 and carries the
model and path keys, because these three are seeded before any fallible
probe step runs. -/
theorem claim_C10_record_keys (vendorIds : List Int) (password : String)
    (devs : List STM32F4.DevUnderProbe) (r : STM32F4.Record)
    (hr : r ∈ STM32F4.enumerate vendorIds password devs) :
    STM32F4.rget r "type" = some (STM32F4.Value.str "stm32f4")
    ∧ (STM32F4.rget r "model").isSome = true
    ∧ (STM32F4.rget r "path").isSome = true := by
  rw [STM32F4.enumerate, List.mem_filterMap] at hr
  obtain ⟨o, ho, hrec⟩ := hr
  rw [List.mem_map] at ho
  obtain ⟨dev, _, rfl⟩ := ho
  exact STM32F4.probeOne_keys vendorIds password dev r hrec

/-- The concrete uninitialized device used as the C10 witness input. -/
def devC10 : STM32F4.DevUnderProbe :=
  ⟨1155, "cdcacm:001:007", false, false,
   ⟨"STMicroelectronics", false, false, false, false⟩, "fp"⟩

/-- The error-tagged record that probing devC10 appends. -/
def recC10 : STM32F4.Record :=
  [("type", STM32F4.Value.str "stm32f4"),
   ("model", STM32F4.Value.str "stm32f4"),
   ("path", STM32F4.Value.str "cdcacm:001:007"),
   ("needs_pin_sent", STM32F4.Value.bool false),
   ("needs_passphrase_sent", STM32F4.Value.bool false),
   ("error", STM32F4.Value.str "Not initialized"),
   ("code", STM32F4.Value.code STM32F4.ErrCode.deviceNotInitialized)]

/-- Witness for C10 at the concrete uninitialized device: its
error-tagged record still carries type, model and path. -/
theorem claim_C10_record_keys_witness :
    STM32F4.rget recC10 "type" = some (STM32F4.Value.str "stm32f4")
    ∧ (STM32F4.rget recC10 "model").isSome = true
    ∧ (STM32F4.rget recC10 "path").isSome = true :=
  claim_C10_record_keys [1155] "" [devC10] recC10 (by decide)

/-- The concrete device whose vendor string lacks the expected
manufacturer token, used as the C3 counterexample input. -/
def devC3bad : STM32F4.DevUnderProbe :=
  ⟨1155, "cdcacm:001:004", false, false,
   ⟨"OtherVendor", false, false, false, true⟩, "fp"⟩

/-- C3 counterexample: a device that passes the vendor-id filter and
opens without USB failure but reports a vendor string without the
expected manufacturer token. Its probe iteration ends in the
vendor-mismatch skip with closeCount 0: the `continue` jumps past
`client.close()`, so the opened transport is not closed, contradicting
the claim that the close happens exactly once in the vendor-mismatch
skip case. -/
theorem claim_C3_close_counterexample :
    STM32F4.probeOne [1155] "" devC3bad =
      ⟨none, 0, false⟩ := by
  decide

/-- C3 amended: for a probed device that passes the vendor-id filter
and whose client construction succeeds, the transport is closed exactly
once in every terminal case — success, DeviceLocked, PassphraseRequired,
uninitialized, and USB failure after the client opened — except the
vendor-mismatch skip, where the `continue` bypasses the close and the
transport is closed zero times. -/
theorem claim_C3_probe_close (vendorIds : List Int) (password : String)
    (dev : STM32F4.DevUnderProbe)
    (hvid : dev.usbVendorId ∈ vendorIds ∨ dev.usbVendorId = -1)
    (hconn : dev.connectFails = false) :
    (STM32F4.probeOne vendorIds password dev).closeCount =
      if dev.initFails = true
          ∨ STM32F4.strContains dev.features.vendor "STMicroelectronics" = true
        then 1 else 0 := by
  cases hi : dev.initFails with
  | true => simp [STM32F4.probeOne, hvid, hconn, hi]
  | false =>
    cases hv : STM32F4.strContains dev.features.vendor "STMicroelectronics" with
    | false => simp [STM32F4.probeOne, hvid, hconn, hi, hv]
    | true =>
      simp only [STM32F4.probeOne]
      rw [if_neg (not_not_intro hvid), hconn, if_neg Bool.false_ne_true,
          hi, if_neg Bool.false_ne_true, hv,
          if_neg (not_not_intro rfl)]
      split_ifs <;> simp_all

/-- Witness for C3 at a concrete matching, initialized device: the
close runs exactly once. -/
theorem claim_C3_probe_close_witness :
    (STM32F4.probeOne [1155] "" devC10).closeCount =
      if devC10.initFails = true
          ∨ STM32F4.strContains devC10.features.vendor "STMicroelectronics" = true
        then 1 else 0 :=
  claim_C3_probe_close [1155] "" devC10 (Or.inl (by decide)) rfl
